import Mathlib

/-!
Shallow embedding of the `bydfipy` streaming client
(`src/bydfipy/websocket.py` together with `constants.py`, `exceptions.py`,
`utils.py`, `types.py`) and proofs settling the frozen claims about it.

Modelling conventions:
* Python `set` of stream names is modelled as a duplicate-free `List String`
  (`pyAdd` inserts only when absent, mirroring `set.add`; the guarded
  `set.remove` is `List.erase` behind the same membership guard the source

  writes).
* The wall clock (`time.time()` / `get_timestamp()`) is an explicit `now`
  argument; probe bookkeeping times are rationals.
* The external Signer collaborator (Python's `hmac`/`hashlib`, library code
  outside this repository) is an explicit function argument `sig` taking the
  secret and the canonical parameter string to the hex signature.
* The transport (`websockets.connect` / `ws.send`, also library code) is an
  environment flag `env`: `true` means a connect attempt succeeds, `false`
  means it raises.  The ghost counter `connectAttempts` counts how many times
  control reaches `websockets.connect` (the attempt itself, regardless of
  outcome); it is instrumentation only and is read by no operation.
* A raised Python exception escaping an operation is an `Option BydfiErr`
  (`some e`) in that operation's result; `none` means the call returned
  normally.
-/

namespace Bydfipy

/-- Constants from `src/bydfipy/constants.py` (WebSocket channel names). -/
def WS_TICKER : String := "ticker"

/-- Constant `WS_TICKER_24HR` from `constants.py`. -/
def WS_TICKER_24HR : String := "ticker.24h"

/-- Constant `WS_ORDERBOOK` from `constants.py`. -/
def WS_ORDERBOOK : String := "orderbook"

/-- Constant `WS_TRADES` from `constants.py`. -/
def WS_TRADES : String := "trades"

/-- Constant `WS_KLINES` from `constants.py`. -/
def WS_KLINES : String := "klines"

/-- Exception taxonomy from `src/bydfipy/exceptions.py`: `BydfiValueError`
(invalid parameter value), `BydfiRequestError` (connection issues, timeout),
`BydfiAPIError` (API returned an error, carries code and message) and
`BydfiAuthError` (authentication error, a `BydfiAPIError`).  Constructors are
distinct, mirroring the distinct Python classes. -/
inductive BydfiErr
  | valueError (msg : String)
  | requestError (msg : String)
  | apiError (code : Int) (msg : String)
  | authError (code : Int) (msg : String)
deriving DecidableEq

/-- Boolean test that `n` is a prefix of `h` (character lists). -/
def charPrefixEq : List Char → List Char → Bool
  | [], _ => true
  | _ :: _, [] => false
  | a :: as, b :: bs => a == b && charPrefixEq as bs

/-- Boolean test that `n` occurs as a contiguous substring of `h`
(character lists); used to model Python's `needle in haystack` on `str`. -/
def charSubstr (n : List Char) : List Char → Bool
  | [] => charPrefixEq n []
  | b :: bs => charPrefixEq n (b :: bs) || charSubstr n bs

/-- Python's `needle in haystack` on strings: substring containment. -/
def strIn (needle hay : String) : Bool :=
  charSubstr needle.data hay.data

/-- Python truthiness of an `Optional[str]`: `None` and `""` are falsy. -/
def truthyS : Option String → Bool
  | none => false
  | some s => !(s == "")

/-- JSON values as decoded by `json.loads`: null, booleans, numbers
(numeric payloads abstracted to `Int`), strings, arrays and objects. -/
inductive Json
  | null
  | boolean (b : Bool)
  | num (n : Int)
  | str (s : String)
  | arr (elems : List Json)
  | obj (kvs : List (String × Json))

/-- Python's `key in data` for a decoded JSON value, `key` a string.
On a dict it is key membership, on a list it is element equality against the
string (a non-string element compares unequal), on a string it is substring
containment; on `None`, booleans and numbers `in` raises `TypeError`
(`.error`). -/
def pyIn (key : String) : Json → Except Unit Bool
  | .obj kvs => .ok (kvs.any (fun kv => kv.1 == key))
  | .arr xs => .ok (xs.any (fun x => match x with | .str s => s == key | _ => false))
  | .str s => .ok (strIn key s)
  | _ => .error ()

/-- Lookup of a key in a decoded JSON object's key/value list, last binding
wins (as in a Python dict built by `json.loads`). -/
def jlookup (kvs : List (String × Json)) (key : String) : Option Json :=
  kvs.foldl (fun acc kv => if kv.1 == key then some kv.2 else acc) none

/-- Python's `data.get(key, default)`: only a dict has `.get`; on any other
value attribute access raises `AttributeError` (`.error`). -/
def pyGetD (j : Json) (key : String) (default : Json) : Except Unit Json :=
  match j with
  | .obj kvs =>
    match jlookup kvs key with
    | some v => .ok v
    | none => .ok default
  | _ => .error ()

/-- Outgoing wire frames built by the client (`_send` arguments):
`{"method": "SUBSCRIBE", "params": [...]}`, the UNSUBSCRIBE twin,
the probe `{"method": "ping", "id": "ping"}` and the AUTH frame carrying
apiKey, timestamp and signature. -/
inductive OutFrame
  | subscribeF (params : List String)
  | unsubscribeF (params : List String)
  | pingF
  | authF (apiKey : String) (timestamp : Int) (signature : String)
deriving DecidableEq

/-- Mutable state of `BydfiWebSocketClient` (fields set in `__init__` and
mutated by the operations).  `ws = none` models `self.ws is None`;
`ws = some b` models a handle whose `.open` attribute is `b`.
`listenerActive` / `pingActive` / `reconnectPending` model the three task
handles being alive (created and neither finished nor cancelled).
`connectAttempts` is the ghost attempt counter described in the header. -/
structure ClientState where
  api_key : Option String
  api_secret : Option String
  ws : Option Bool
  subscribed_streams : List String
  authenticated : Bool
  running : Bool
  listenerActive : Bool
  pingActive : Bool
  reconnectPending : Bool
  connectAttempts : Nat
deriving DecidableEq

/-- Python `set.add`: insert the stream only when absent (at the tail,
fixing one enumeration order for the model). -/
def pyAdd (l : List String) (st : String) : List String :=
  if st ∈ l then l else l ++ [st]

/-- Python's guarded `set.remove` from `unsubscribe`:
`if stream in set: set.remove(stream)`. -/
def pyRemove (l : List String) (st : String) : List String :=
  if st ∈ l then l.erase st else l

/-- AUTH frame built by `_authenticate` (lines 274-285): canonical parameter
string `timestamp=<now>`, signed by the external Signer with the secret. -/
def authFrame (sig : String → String → String) (now : Int)
    (key secret : String) : OutFrame :=
  .authF key now (sig secret ("timestamp=" ++ toString now))

/-- The client's `connect` (`websocket.py` lines 81-116).  A no-op when the
handle exists and is open.  Otherwise `websockets.connect` is attempted
(ghost counter bumped).  On success the handle opens, `running` is set, the
listener and probe tasks start, and — only when the subscription set is
non-empty — one SUBSCRIBE frame per stored stream is sent, followed, when
`authenticated` and both credentials are truthy, by `_authenticate()` (which
re-sends the AUTH frame and re-sets the flag); the inner `_send` calls see an
open handle and send directly.  On failure the exception is swallowed: the
handle is cleared, `running` is cleared, and a reconnect task is spawned
unless one is already pending. -/
def connect (sig : String → String → String) (now : Int) (env : Bool)
    (s : ClientState) : ClientState × List OutFrame :=
  if s.ws = some true then (s, [])
  else
    let s0 := { s with connectAttempts := s.connectAttempts + 1 }
    if env then
      let s1 := { s0 with ws := some true, running := true,
                          listenerActive := true, pingActive := true }
      if s1.subscribed_streams.isEmpty then (s1, [])
      else
        let subFrames := s1.subscribed_streams.map (fun st => OutFrame.subscribeF [st])
        if s1.authenticated && truthyS s1.api_key && truthyS s1.api_secret then
          ({ s1 with authenticated := true },
           subFrames ++ [authFrame sig now (s1.api_key.getD "") (s1.api_secret.getD "")])
        else (s1, subFrames)
    else
      let s1 := { s0 with ws := none, running := false }
      if s1.reconnectPending then (s1, []) else ({ s1 with reconnectPending := true }, [])

/-- Result of an operation that may raise: the state after it, the frames it
put on the wire, and the escaped exception if any (`none`: returned
normally). -/
structure OpResult where
  state : ClientState
  frames : List OutFrame
  err : Option BydfiErr
deriving DecidableEq

/-- The client's `_send` (lines 213-226): when the handle is missing or not
open, call `connect()` first (which may itself replay frames); then send the
frame only if a handle is now open.  No branch raises: a failed implicit
connect swallows its exception inside `connect` and the send is skipped. -/
def wsSend (sig : String → String → String) (now : Int) (env : Bool)
    (s : ClientState) (f : OutFrame) : OpResult :=
  let (s1, fs) := if s.ws = some true then (s, []) else connect sig now env s
  if s1.ws = some true then ⟨s1, fs ++ [f], none⟩ else ⟨s1, fs, none⟩

/-- The client's `subscribe` (lines 290-310): empty list returns at once;
otherwise connect if not open, send one SUBSCRIBE frame with all the streams,
then add each stream to the subscription set (additions happen only when the
send returned normally, as a raise would skip the loop). -/
def subscribe (sig : String → String → String) (now : Int) (env : Bool)
    (s : ClientState) (streams : List String) : OpResult :=
  if streams.isEmpty then ⟨s, [], none⟩
  else
    let (s1, f1) := if s.ws = some true then (s, []) else connect sig now env s
    let r := wsSend sig now env s1 (.subscribeF streams)
    match r.err with
    | some e => ⟨r.state, f1 ++ r.frames, some e⟩
    | none =>
      ⟨{ r.state with
           subscribed_streams := streams.foldl pyAdd r.state.subscribed_streams },
       f1 ++ r.frames, none⟩

/-- The client's `unsubscribe` (lines 312-333): empty list returns at once;
then, despite the comment `Connect if not already connected`, the body
returns when the handle is missing or not open, touching nothing; otherwise
it sends one UNSUBSCRIBE frame and removes each present stream from the
subscription set. -/
def unsubscribe (sig : String → String → String) (now : Int) (env : Bool)
    (s : ClientState) (streams : List String) : OpResult :=
  if streams.isEmpty then ⟨s, [], none⟩
  else if !(s.ws = some true : Bool) then ⟨s, [], none⟩
  else
    let r := wsSend sig now env s (.unsubscribeF streams)
    match r.err with
    | some e => ⟨r.state, r.frames, some e⟩
    | none =>
      ⟨{ r.state with
           subscribed_streams := streams.foldl pyRemove r.state.subscribed_streams },
       r.frames, none⟩

/-- The client's `_authenticate` (lines 267-288): with a missing or empty
key or secret it raises `BydfiValueError` before building or sending
anything; otherwise it builds the AUTH frame from the timestamp and the
Signer, sends it through `_send`, and then optimistically sets
`authenticated`. -/
def authenticate (sig : String → String → String) (now : Int) (env : Bool)
    (s : ClientState) : OpResult :=
  if !truthyS s.api_key || !truthyS s.api_secret then
    ⟨s, [], some (.valueError "API key and secret required for authentication")⟩
  else
    let r := wsSend sig now env s
      (authFrame sig now (s.api_key.getD "") (s.api_secret.getD ""))
    match r.err with
    | some e => ⟨r.state, r.frames, some e⟩
    | none => ⟨{ r.state with authenticated := true }, r.frames, none⟩

/-- The client's `close` (lines 335-354): clear `running`; cancel the
listener and probe tasks when alive; close the handle when open (it stays
non-`None` but no longer open); clear the subscription set and the
authenticated flag.  The reconnect task handle is not touched. -/
def close (s : ClientState) : ClientState :=
  { s with running := false,
           listenerActive := false,
           pingActive := false,
           ws := s.ws.map (fun _ => false),
           subscribed_streams := [],
           authenticated := false }

/-- What the pending `_reconnect` task (lines 118-124) does when its fixed
delay elapses without the task having been cancelled: it calls `connect()`
unconditionally.  While it runs, `self.reconnect_task` is that very task and
is not done, so a failing inner `connect` does not spawn a fresh task; the
handle is done (pending cleared) once the body returns. -/
def reconnectFire (sig : String → String → String) (now : Int) (env : Bool)
    (s : ClientState) : ClientState × List OutFrame :=
  if s.reconnectPending then
    let (s1, fs) := connect sig now env s
    ({ s1 with reconnectPending := false }, fs)
  else (s, [])

/-- Envelope delivered to the consumer: the `WSMessage` TypedDict from
`src/bydfipy/types.py` (`type`, `stream`, `data`, `time`).  The `stream` and
`data` components are whatever JSON values `message.get` produced. -/
structure WSMessage where
  type : String
  stream : Json
  data : Json
  time : Int

/-- Feed-kind chain of `_process_message` (lines 243-258) applied to a JSON
value: each Python `substr in stream` membership test in source order, the
first hit fixing the type; `msg_type` stays `""` when nothing matches.  A
non-iterable stream value makes the first test raise `TypeError`. -/
def msgTypeOf (stream : Json) : Except Unit String :=
  match pyIn "ticker" stream with
  | .error e => .error e
  | .ok true =>
    match pyIn "24h" stream with
    | .error e => .error e
    | .ok true => .ok WS_TICKER_24HR
    | .ok false => .ok WS_TICKER
  | .ok false =>
    match pyIn "orderbook" stream with
    | .error e => .error e
    | .ok true => .ok WS_ORDERBOOK
    | .ok false =>
      match pyIn "trades" stream with
      | .error e => .error e
      | .ok true => .ok WS_TRADES
      | .ok false =>
        match pyIn "kline" stream with
        | .error e => .error e
        | .ok true => .ok WS_KLINES
        | .ok false =>
          match pyIn "account" stream with
          | .error e => .error e
          | .ok true => .ok "account"
          | .ok false =>
            match pyIn "order" stream with
            | .error e => .error e
            | .ok true => .ok "order"
            | .ok false => .ok ""

/-- The client's `_process_message` (lines 228-265): read `stream` (default
`""`) and `data` (default `{}`) off the message dict, classify the stream,
and build the `WSMessage` with the current timestamp.  A raise in any step
escapes (`.error`). -/
def processMessage (now : Int) (message : Json) : Except Unit WSMessage :=
  match pyGetD message "stream" (.str "") with
  | .error e => .error e
  | .ok stream =>
    match pyGetD message "data" (.obj []) with
    | .error e => .error e
    | .ok data =>
      match msgTypeOf stream with
      | .error e => .error e
      | .ok ty => .ok ⟨ty, stream, data, now⟩

/-- Action the listener body takes on one decoded frame: discard it, record
a probe acknowledgement, or deliver an envelope to the queue. -/
inductive LAction
  | skip
  | pong
  | deliver (m : WSMessage)

/-- Body of the listener's per-message `try` block (lines 135-157) on an
already-decoded JSON value: the `error` branch (which reads
`data.get("error", {}).get("msg", ...)` and `.get("code", ...)`, so a
non-dict error payload raises), then the pong branch
(`"result" in data and data.get("id") == "ping"`, the `get` evaluated only
when the membership test passed), then the `stream` branch delivering the
processed message.  Any raise other than `json.JSONDecodeError` escapes the
inner handler (`.error`) and aborts the whole receive loop. -/
def handleDecoded (now : Int) (data : Json) : Except Unit LAction :=
  match pyIn "error" data with
  | .error e => .error e
  | .ok true =>
    match pyGetD data "error" (.obj []) with
    | .error e => .error e
    | .ok errv =>
      match pyGetD errv "msg" (.str "Unknown error") with
      | .error e => .error e
      | .ok _ =>
        match pyGetD errv "code" (.num 0) with
        | .error e => .error e
        | .ok _ => .ok .skip
  | .ok false =>
    match pyIn "result" data with
    | .error e => .error e
    | .ok hasRes =>
      match (if hasRes then pyGetD data "id" .null else .ok .null) with
      | .error e => .error e
      | .ok idv =>
        if hasRes && (match idv with | .str s => s == "ping" | _ => false) then
          .ok .pong
        else
          match pyIn "stream" data with
          | .error e => .error e
          | .ok true =>
            match processMessage now data with
            | .error e => .error e
            | .ok m => .ok (.deliver m)
          | .ok false => .ok .skip

/-- One iteration of the listener loop on a raw frame, after `json.loads`:
`none` is a frame that failed to decode — the inner handler catches
`json.JSONDecodeError`, logs, and the loop continues; `some data` runs the
body on the decoded value. -/
def listenerStep (now : Int) : Option Json → Except Unit LAction
  | none => .ok .skip
  | some data => handleDecoded now data

/-- The receive loop `_listener` (lines 126-184) over a finite inbound
prefix: process frames in order, collecting delivered envelopes; an escaped
exception ends the loop at once (outer `except Exception`: remaining frames
of this connection epoch are never read) and the flag records that the loop
died on a raise rather than by exhausting its input. -/
def listenerRun (now : Int) : List (Option Json) → List WSMessage × Bool
  | [] => ([], false)
  | f :: fs =>
    match listenerStep now f with
    | .error _ => ([], true)
    | .ok (.deliver m) =>
      let r := listenerRun now fs
      (m :: r.1, r.2)
    | .ok _ => listenerRun now fs

/-- Staleness test of the probe loop `_pinger` (lines 200-201):
`self.last_ping_time > self.last_pong_time and
 time.time() - self.last_ping_time > self.ping_timeout`. -/
def pingStale (last_ping last_pong now ping_timeout : ℚ) : Bool :=
  decide (last_pong < last_ping) && decide (ping_timeout < now - last_ping)

/-- Pure view of the feed-kind chain on a string-valued stream field: the
ordered substring matches of lines 243-258 (`ticker`+`24h`, `ticker`,
`orderbook`, `trades`, `kline`, `account`, `order`, default `""`). -/
def strMsgType (stream : String) : String :=
  if strIn "ticker" stream then
    if strIn "24h" stream then WS_TICKER_24HR else WS_TICKER
  else if strIn "orderbook" stream then WS_ORDERBOOK
  else if strIn "trades" stream then WS_TRADES
  else if strIn "kline" stream then WS_KLINES
  else if strIn "account" stream then "account"
  else if strIn "order" stream then "order"
  else ""

/-- Freshly constructed client (`__init__` with no credentials): no handle,
no subscriptions, nothing running, no tasks. -/
def idleState : ClientState :=
  { api_key := none, api_secret := none, ws := none, subscribed_streams := [],
    authenticated := false, running := false, listenerActive := false,
    pingActive := false, reconnectPending := false, connectAttempts := 0 }

/-- Placeholder Signer used to evaluate the model at concrete inputs where
no theorem inspects the signature value. -/
def sigC : String → String → String := fun _ params => params

/-- Reachable state right after a transport failure was observed by the
listener: handle closed, loops stopped, one reconnect task sleeping its
fixed delay, one subscription on record. -/
def preCloseState : ClientState :=
  { idleState with ws := some false, reconnectPending := true,
                   subscribed_streams := ["btc-usdt@ticker"] }

/-- Reachable state after `_authenticate` succeeded and the transport then
dropped: credentials configured, `authenticated` still set (nothing resets
it on disconnect), subscription set empty, handle gone. -/
def authRState : ClientState :=
  { idleState with authenticated := true, api_key := some "key",
                   api_secret := some "secret" }

/-- On a string-valued stream field the monadic feed-kind chain never raises
and agrees with the pure ordered-substring view. -/
theorem msgTypeOf_str (s : String) : msgTypeOf (.str s) = .ok (strMsgType s) := by
  have p : ∀ k : String, pyIn k (.str s) = .ok (strIn k s) := fun _ => rfl
  unfold msgTypeOf strMsgType
  simp only [p]
  cases strIn "ticker" s <;> cases strIn "24h" s <;> cases strIn "orderbook" s <;>
    cases strIn "trades" s <;> cases strIn "kline" s <;> cases strIn "account" s <;>
    cases strIn "order" s <;> rfl

/-- `_process_message` on a data frame whose `stream` field is a string:
builds the envelope with the classified kind, the raw stream, the payload
and the receipt time. -/
theorem processMessage_obj (now : Int) (st : String) (d : Json) :
    processMessage now (.obj [("stream", .str st), ("data", d)])
      = .ok ⟨strMsgType st, .str st, d, now⟩ := by
  have h : processMessage now (.obj [("stream", .str st), ("data", d)])
      = (match msgTypeOf (.str st) with
         | .error e => .error e
         | .ok ty => .ok (⟨ty, .str st, d, now⟩ : WSMessage)) := rfl
  rw [h, msgTypeOf_str]

/-- Claim C10: `subscribe` and `unsubscribe` with an empty stream list are
complete no-ops in every client state: no frame is sent, no connect attempt
is made (ghost counter unchanged, since the state is returned untouched),
and the subscription set, the authenticated flag and the handle are exactly
as before; the call returns normally. -/
theorem c10_empty_call_noop (sig : String → String → String) (now : Int)
    (env : Bool) (s : ClientState) :
    subscribe sig now env s [] = ⟨s, [], none⟩ ∧
    unsubscribe sig now env s [] = ⟨s, [], none⟩ := by
  constructor <;> rfl

/-- Claim C2, counterexample: `close` does not leave the subscription set
unchanged — on a connected client holding one subscription the set after
`close` differs from the set before (it is cleared). -/
theorem c2_close_counterexample :
    (close { idleState with ws := some true, running := true,
                            subscribed_streams := ["btc-usdt@ticker"] }).subscribed_streams
      ≠ ({ idleState with ws := some true, running := true,
                          subscribed_streams := ["btc-usdt@ticker"] } : ClientState).subscribed_streams := by
  decide

/-- Claim C2 as amended: `close()` stops the receive and probe loops, clears
`running`, leaves the handle non-open, clears the authenticated flag — and
also clears the subscription set (lines 352-353 empty it). -/
theorem c2_close_clears_subscriptions (s : ClientState) :
    (close s).running = false ∧ (close s).listenerActive = false ∧
    (close s).pingActive = false ∧ (close s).ws ≠ some true ∧
    (close s).authenticated = false ∧ (close s).subscribed_streams = [] := by
  refine ⟨rfl, rfl, rfl, ?_, rfl, rfl⟩
  cases s.ws <;> simp [close]

/-- Claim C3: evaluation at the failing input.  A disconnected client
(`ws = none`) holding the subscription `"btc-usdt@ticker"` is asked to
unsubscribe exactly that id; the call returns at once with the state
untouched — the id is still in the registry, no frame is sent, and no
connect is attempted — because `unsubscribe` returns early when the handle
is not open (lines 323-324), against the claim (and against the source's
own `Connect if not already connected` comment). -/
theorem c3_unsubscribe_while_disconnected_noop :
    unsubscribe sigC 0 true
        { idleState with subscribed_streams := ["btc-usdt@ticker"] }
        ["btc-usdt@ticker"]
      = ⟨{ idleState with subscribed_streams := ["btc-usdt@ticker"] }, [], none⟩ ∧
    ("btc-usdt@ticker" ∈ (unsubscribe sigC 0 true
        { idleState with subscribed_streams := ["btc-usdt@ticker"] }
        ["btc-usdt@ticker"]).state.subscribed_streams) := by
  constructor <;> decide

/-- Claim C9: calling `_authenticate` when the key or the secret is missing
(or empty, Python falsiness) raises `BydfiValueError` immediately: the state
is returned untouched (so the ghost connect counter shows no connection
attempt) and no frame is sent; and that error kind is distinct from the
transport error kind `BydfiRequestError`. -/
theorem c9_authenticate_without_credentials (sig : String → String → String)
    (now : Int) (env : Bool) (s : ClientState)
    (h : truthyS s.api_key = false ∨ truthyS s.api_secret = false) :
    authenticate sig now env s
      = ⟨s, [], some (.valueError "API key and secret required for authentication")⟩ ∧
    (∀ m m2 : String, BydfiErr.valueError m ≠ BydfiErr.requestError m2) := by
  refine ⟨?_, fun m m2 hc => by cases hc⟩
  rcases h with h | h <;> simp [authenticate, h]

/-- Witness for C9 at a concrete input: the fresh client has no key
configured, and authenticating it fails with the configuration error and no
frame. -/
theorem c9_authenticate_witness :
    truthyS idleState.api_key = false ∧
    (authenticate sigC 0 true idleState
      = ⟨idleState, [], some (.valueError "API key and secret required for authentication")⟩ ∧
    (∀ m m2 : String, BydfiErr.valueError m ≠ BydfiErr.requestError m2)) :=
  ⟨by decide, c9_authenticate_without_credentials sigC 0 true idleState (Or.inl (by decide))⟩

/-- Claim C7: the staleness check of the probe loop fires exactly when the
last probe-sent time is strictly newer than the last acknowledged time and
the elapsed time since the probe exceeds the probe timeout; with the matching
acknowledgement recorded (at a time after the probe) a check at
`probe + timeout - eps` does not fire, and with no acknowledgement (last
acknowledged time predating the probe) a check at `probe + timeout + eps`
does. -/
theorem c7_probe_staleness (probe ack pong timeout eps : ℚ)
    (heps : 0 < eps) (hack : probe < ack) (hpong : pong < probe) :
    pingStale probe ack (probe + timeout - eps) timeout = false ∧
    pingStale probe pong (probe + timeout + eps) timeout = true ∧
    (∀ lp pg n t : ℚ, pingStale lp pg n t = true ↔ pg < lp ∧ t < n - lp) := by
  refine ⟨?_, ?_, ?_⟩
  · have h1 : ¬ ack < probe := not_lt.mpr hack.le
    simp [pingStale, h1]
  · have h2 : timeout < probe + timeout + eps - probe := by linarith
    simp [pingStale, hpong, h2]
  · intro lp pg n t
    simp [pingStale]

/-- Witness for C7 at concrete times: probe sent at 10, acknowledgement at
11, a stale acknowledgement at 0, timeout 5, eps 1. -/
theorem c7_probe_staleness_witness :
    ((0:ℚ) < 1 ∧ (10:ℚ) < 11 ∧ (0:ℚ) < 10) ∧
    (pingStale 10 11 (10 + 5 - 1) 5 = false ∧
     pingStale 10 0 (10 + 5 + 1) 5 = true ∧
     (∀ lp pg n t : ℚ, pingStale lp pg n t = true ↔ pg < lp ∧ t < n - lp)) :=
  ⟨⟨by norm_num, by norm_num, by norm_num⟩,
   c7_probe_staleness 10 11 0 5 1 (by norm_num) (by norm_num) (by norm_num)⟩

/-- Claim C5: evaluation at the failing input.  `authRState` is the client
after a successful authentication (flag set, credentials configured) whose
subscription set was empty when the transport dropped; a successful
reconnect sends no frame at all — in particular zero AUTH frames, where the
claim requires exactly one — because the re-authentication call sits inside
the `if self.subscribed_streams:` block (lines 99-105).  For contrast, the
same reconnect from the same state holding subscriptions `"a"`, `"b"` sends
exactly one SUBSCRIBE frame per entry followed by exactly one AUTH frame. -/
theorem c5_reconnect_replay_auth_gap :
    authRState.authenticated = true ∧
    truthyS authRState.api_key = true ∧ truthyS authRState.api_secret = true ∧
    (connect sigC 0 true authRState).2 = [] ∧
    (connect sigC 0 true { authRState with subscribed_streams := ["a", "b"] }).2
      = [.subscribeF ["a"], .subscribeF ["b"],
         .authF "key" 0 (sigC "secret" "timestamp=0")] := by
  refine ⟨rfl, rfl, rfl, rfl, ?_⟩
  rfl

/-- Claim C1: evaluation at the failing input.  `preCloseState` has one
reconnect task sleeping its delay; `close()` runs, then the timer elapses
with the network available.  The reconnect is not suppressed: `close` leaves
the task handle alive (lines 341-346 cancel only the listener and probe
tasks) and `_reconnect` calls `connect()` unconditionally, so a fresh
transport attempt is made (ghost counter goes up by one) and it resurrects
the client: an open handle and `running = true` after a completed close. -/
theorem c1_close_pending_reconnect_still_connects :
    (close preCloseState).reconnectPending = true ∧
    (reconnectFire sigC 0 true (close preCloseState)).1.connectAttempts
      = preCloseState.connectAttempts + 1 ∧
    (reconnectFire sigC 0 true (close preCloseState)).1.ws = some true ∧
    (reconnectFire sigC 0 true (close preCloseState)).1.running = true := by
  refine ⟨rfl, ?_, rfl, rfl⟩
  decide

/-- Claim C4, counterexample: a disconnected client with an unreachable
transport is asked to send a subscribe frame.  The call attempts the
implicit connect (counter 1), the connect fails — and `_send` then returns
normally (`err = none`, no raised transport error) having sent nothing: the
frame is silently dropped, with only a background reconnect task scheduled.
The claim required the call to fail with a transport error. -/
theorem c4_counterexample_silent_drop :
    wsSend sigC 0 false idleState (.subscribeF ["btc-usdt@ticker"])
      = ⟨{ idleState with connectAttempts := 1, reconnectPending := true },
         [], none⟩ := by
  decide

/-- Claim C4 as amended: sending while disconnected first attempts an
implicit connect; if the transport is unreachable the call still returns
normally — the frame is dropped, no error escapes, the handle is cleared and
a reconnect is pending — and if the transport is reachable the frame is sent
(it is on the wire, after any replay frames the connect produced). -/
theorem c4_send_disconnected_behavior (sig : String → String → String)
    (now : Int) (s : ClientState) (f : OutFrame) (h : s.ws ≠ some true) :
    (wsSend sig now false s f).state.connectAttempts = s.connectAttempts + 1 ∧
    (wsSend sig now false s f).frames = [] ∧
    (wsSend sig now false s f).err = none ∧
    (wsSend sig now false s f).state.ws = none ∧
    (wsSend sig now false s f).state.reconnectPending = true ∧
    f ∈ (wsSend sig now true s f).frames := by
  unfold wsSend connect
  simp only [if_neg h]
  constructor
  · cases hp : s.reconnectPending <;> simp [hp]
  refine ⟨?_, ?_, ?_, ?_, ?_⟩
  · cases hp : s.reconnectPending <;> simp [hp]
  · cases hp : s.reconnectPending <;> simp [hp]
  · cases hp : s.reconnectPending <;> simp [hp]
  · cases hp : s.reconnectPending <;> simp [hp]
  · cases he : s.subscribed_streams.isEmpty <;>
      cases ha : (s.authenticated && truthyS s.api_key && truthyS s.api_secret) <;>
      simp [he, ha]

/-- Witness for C4 at a concrete input: the fresh client is disconnected,
and sending a subscribe frame behaves as the amended claim states. -/
theorem c4_send_disconnected_witness :
    idleState.ws ≠ some true ∧
    ((wsSend sigC 0 false idleState (.subscribeF ["x"])).state.connectAttempts
        = idleState.connectAttempts + 1 ∧
     (wsSend sigC 0 false idleState (.subscribeF ["x"])).frames = [] ∧
     (wsSend sigC 0 false idleState (.subscribeF ["x"])).err = none ∧
     (wsSend sigC 0 false idleState (.subscribeF ["x"])).state.ws = none ∧
     (wsSend sigC 0 false idleState (.subscribeF ["x"])).state.reconnectPending = true ∧
     OutFrame.subscribeF ["x"] ∈ (wsSend sigC 0 true idleState (.subscribeF ["x"])).frames) :=
  ⟨by decide, c4_send_disconnected_behavior sigC 0 idleState (.subscribeF ["x"]) (by decide)⟩

/-- Claim C6: feed classification of inbound data frames.  The seven spec
examples evaluate as claimed (the `unknown` kind is the source's leftover
`msg_type = ""`), and in general the envelope built from a data frame whose
`stream` field is a string carries the kind computed by ordered substring
matching (`strMsgType`), the raw stream, the payload and the receipt
time. -/
theorem c6_feed_classification :
    (∀ now : Int,
      processMessage now (.obj [("stream", .str "btc-usdt@ticker")])
        = .ok ⟨WS_TICKER, .str "btc-usdt@ticker", .obj [], now⟩ ∧
      processMessage now (.obj [("stream", .str "btc-usdt@ticker.24h")])
        = .ok ⟨WS_TICKER_24HR, .str "btc-usdt@ticker.24h", .obj [], now⟩ ∧
      processMessage now (.obj [("stream", .str "btc-usdt@orderbook.10")])
        = .ok ⟨WS_ORDERBOOK, .str "btc-usdt@orderbook.10", .obj [], now⟩ ∧
      processMessage now (.obj [("stream", .str "btc-usdt@trades")])
        = .ok ⟨WS_TRADES, .str "btc-usdt@trades", .obj [], now⟩ ∧
      processMessage now (.obj [("stream", .str "eth-usdt@kline_1h")])
        = .ok ⟨WS_KLINES, .str "eth-usdt@kline_1h", .obj [], now⟩ ∧
      processMessage now (.obj [("stream", .str "account")])
        = .ok ⟨"account", .str "account", .obj [], now⟩ ∧
      processMessage now (.obj [("stream", .str "order")])
        = .ok ⟨"order", .str "order", .obj [], now⟩ ∧
      processMessage now (.obj [("stream", .str "unknown-thing")])
        = .ok ⟨"", .str "unknown-thing", .obj [], now⟩) ∧
    (∀ (now : Int) (st : String) (d : Json),
      processMessage now (.obj [("stream", .str st), ("data", d)])
        = .ok ⟨strMsgType st, .str st, d, now⟩) := by
  refine ⟨fun now => ⟨rfl, rfl, rfl, rfl, rfl, rfl, rfl, rfl⟩, ?_⟩
  intro now st d
  exact processMessage_obj now st d

/-- Claim C8, counterexample: the inbound sequence is a frame that decodes
to the JSON number `5` (an unexpected, non-object shape) followed by a valid
data frame.  The number is not skipped: `"error" in data` raises `TypeError`,
only `json.JSONDecodeError` is caught per-frame, so the receive loop
terminates (`true`) and the subsequent valid frame is never delivered
(`[]`) — against the claim that such a frame never terminates the loop. -/
theorem c8_counterexample_nonobject_frame :
    listenerRun 0 [some (.num 5), some (.obj [("stream", .str "btc-usdt@ticker")])]
      = ([], true) := by
  rfl

/-- Claim C8 as amended: a frame that fails to decode as JSON is logged and
skipped and the loop continues, delivering every later valid frame of the
epoch; a decoded JSON object with no recognized field is likewise skipped;
a valid data frame is delivered in place; but a frame decoding to a JSON
value on which Python's `in` raises (such as a bare number) terminates the
receive loop, and no later frame of that epoch is delivered. -/
theorem c8_decode_failure_handling :
    (∀ (now : Int) (fs : List (Option Json)),
      listenerRun now (none :: fs) = listenerRun now fs) ∧
    (∀ (now : Int) (fs : List (Option Json)),
      listenerRun now (some (.obj []) :: fs) = listenerRun now fs) ∧
    (∀ (now : Int) (st : String) (d : Json) (fs : List (Option Json)),
      listenerRun now (some (.obj [("stream", .str st), ("data", d)]) :: fs)
        = (⟨strMsgType st, .str st, d, now⟩ :: (listenerRun now fs).1,
           (listenerRun now fs).2)) ∧
    (∀ (now : Int) (fs : List (Option Json)),
      listenerRun now (some (.num 5) :: fs) = ([], true)) := by
  refine ⟨fun now fs => rfl, fun now fs => rfl, ?_, fun now fs => rfl⟩
  intro now st d fs
  have hstep : listenerStep now (some (.obj [("stream", .str st), ("data", d)]))
      = (match processMessage now (.obj [("stream", .str st), ("data", d)]) with
         | .error e => .error e
         | .ok m => .ok (LAction.deliver m)) := rfl
  rw [processMessage_obj] at hstep
  show (match listenerStep now (some (.obj [("stream", .str st), ("data", d)])) with
        | .error _ => ([], true)
        | .ok (.deliver m) =>
          let r := listenerRun now fs
          (m :: r.1, r.2)
        | .ok _ => listenerRun now fs)
      = _
  rw [hstep]

end Bydfipy
